import Mathlib

/-!
Verification of the hello-api Flask service (src/api/src/app.py) of the
apim-multicloud-poc repository, as a shallow embedding in Lean 4.

Every route handler is a pure transformation of (process configuration,
request metadata, current timestamp) into a JSON response, so each handler
is embedded as a Lean function.  The current timestamp and the machine
hostname are passed in explicitly as strings; the Flask/Werkzeug query
parameter parsing (`request.args.get(key, default, type=int)`) is modelled
by `argsGetInt` below.
-/

namespace HelloApi

/-- A JSON value, as produced by Flask `jsonify`.  `null` embeds Python
`None` (absent headers). -/
inductive Json where
  | str : String → Json
  | int : Int → Json
  | null : Json
  | obj : List (String × Json) → Json
  deriving Repr

/-- Field lookup in a JSON object (first match wins, as in Python dicts
built from literals whose keys are distinct). -/
def Json.getField : Json → String → Option Json
  | .obj fields, k => fields.lookup k
  | _, _ => none

/-- The keys of a JSON object, in insertion order. -/
def Json.keys : Json → List String
  | .obj fields => fields.map Prod.fst
  | _ => []

/-- Embed an optional header value: Python `None` becomes JSON `null`. -/
def Json.ofOptStr : Option String → Json
  | some s => .str s
  | none => .null

/-- An HTTP response as the handlers produce it: a status code and a JSON
body.  Flask handlers that return a bare `jsonify(...)` have status 200;
tuples `(jsonify(...), code)` carry the explicit code. -/
structure HttpResponse where
  status : Int
  body : Json
  deriving Repr

/-- The instance configuration read once from environment variables at
process start (app.py lines 22-26). -/
structure Config where
  cloud_provider : String
  region : String
  environment : String
  pod_name : String
  pod_ip : String
  deriving Repr, DecidableEq

/-- Startup construction of the configuration from the process environment
(`os.environ.get` with defaults; `POD_NAME` falls back to the machine
hostname). -/
def mkConfig (env : List (String × String)) (hostname : String) : Config where
  cloud_provider := (env.lookup "CLOUD_PROVIDER").getD "Unknown"
  region := (env.lookup "REGION").getD "Unknown"
  environment := (env.lookup "ENVIRONMENT").getD "Unknown"
  pod_name := (env.lookup "POD_NAME").getD hostname
  pod_ip := (env.lookup "POD_IP").getD "Unknown"

/-- An inbound HTTP request: path, peer address, headers and query
parameters as association lists. -/
structure HttpRequest where
  path : String
  remote_addr : String
  headers : List (String × String)
  args : List (String × String)
  deriving Repr, DecidableEq

/-- Modelled from the spec: Python `int(str)` as used by Flask query
parameter conversion — an optional sign followed by one or more decimal
digits; anything else fails to parse. -/
def pythonInt? (s : String) : Option Int :=
  let parseDigits : List Char → Option Nat := fun cs =>
    if cs ≠ [] ∧ cs.all Char.isDigit then
      some (cs.foldl (fun a c => a * 10 + (c.toNat - 48)) 0)
    else
      none
  match s.toList with
  | '-' :: rest => (parseDigits rest).map (fun n => -(n : Int))
  | '+' :: rest => (parseDigits rest).map (fun n => (n : Int))
  | cs => (parseDigits cs).map (fun n => (n : Int))

/-- Modelled from the spec: Werkzeug `request.args.get(key, default,
type=int)` — the default when the key is absent, the default when the value
fails to parse as an integer, and the parsed integer otherwise. -/
def argsGetInt (args : List (String × String)) (key : String) (dflt : Int) : Int :=
  match args.lookup key with
  | none => dflt
  | some v => (pythonInt? v).getD dflt

/-- Header lookup, `request.headers.get(name)`. -/
def headerGet (req : HttpRequest) (name : String) : Option String :=
  req.headers.lookup name

/-- `get_request_info` (app.py lines 29-36): client address, the
`X-Forwarded-For`, `X-APIM-Gateway` and `User-Agent` headers. -/
structure RequestInfo where
  client_ip : String
  forwarded_for : Option String
  apim_gateway : Option String
  user_agent : Option String
  deriving Repr, DecidableEq

def get_request_info (req : HttpRequest) : RequestInfo where
  client_ip := req.remote_addr
  forwarded_for := headerGet req "X-Forwarded-For"
  apim_gateway := headerGet req "X-APIM-Gateway"
  user_agent := headerGet req "User-Agent"

/-- The `/hello` handler (app.py lines 39-67).  The `now` argument embeds
`datetime.now(timezone.utc).isoformat()`. -/
def hello (cfg : Config) (req : HttpRequest) (now : String) : HttpResponse :=
  let request_info := get_request_info req
  { status := 200
    body := .obj [
      ("message", .str ("Hello from " ++ cfg.cloud_provider ++ "!")),
      ("source", .str cfg.cloud_provider),
      ("timestamp", .str now),
      ("instance", .obj [
        ("cloud", .str cfg.cloud_provider),
        ("region", .str cfg.region),
        ("environment", .str cfg.environment),
        ("pod_name", .str cfg.pod_name),
        ("pod_ip", .str cfg.pod_ip)]),
      ("request", .obj [
        ("client_ip", .str request_info.client_ip),
        ("forwarded_for", .ofOptStr request_info.forwarded_for),
        ("gateway", .ofOptStr request_info.apim_gateway)])] }

/-- The `/health` handler (app.py lines 70-79). -/
def health (cfg : Config) (now : String) : HttpResponse :=
  { status := 200
    body := .obj [
      ("status", .str "healthy"),
      ("cloud", .str cfg.cloud_provider),
      ("timestamp", .str now)] }

/-- The `/ready` handler (app.py lines 82-91). -/
def ready (cfg : Config) (now : String) : HttpResponse :=
  { status := 200
    body := .obj [
      ("status", .str "ready"),
      ("cloud", .str cfg.cloud_provider),
      ("timestamp", .str now)] }

/-- The `/info` handler (app.py lines 94-111); `hostname` embeds
`socket.gethostname()` evaluated at request time. -/
def info (cfg : Config) (hostname : String) (now : String) : HttpResponse :=
  { status := 200
    body := .obj [
      ("service", .str "hello-api"),
      ("version", .str "1.0.0"),
      ("cloud_provider", .str cfg.cloud_provider),
      ("region", .str cfg.region),
      ("environment", .str cfg.environment),
      ("instance", .obj [
        ("pod_name", .str cfg.pod_name),
        ("pod_ip", .str cfg.pod_ip),
        ("hostname", .str hostname)]),
      ("timestamp", .str now)] }

/-- Modelled from Python `time.sleep` semantics: a negative duration raises
`ValueError`, a non-negative one succeeds. -/
def timeSleep (seconds : Int) : Except String Unit :=
  if seconds < 0 then .error "sleep length must be non-negative"
  else .ok ()

/-- The effective delay of `/simulate/slow` (app.py lines 121-122): parse
`delay` with default 5, then cap at 30. -/
def slowDelay (req : HttpRequest) : Int :=
  min (argsGetInt req.args "delay" 5) 30

/-- The `/simulate/slow` handler (app.py lines 114-131): sleeps for the
effective delay, then reports it.  The result is in `Except` because the
sleep itself can fail (negative duration). -/
def simulate_slow (cfg : Config) (req : HttpRequest) (now : String) :
    Except String HttpResponse :=
  let delay := slowDelay req
  (timeSleep delay).map (fun _ =>
    { status := 200
      body := .obj [
        ("message", .str ("Slow response after " ++ toString delay ++ " seconds")),
        ("delay_seconds", .int delay),
        ("cloud", .str cfg.cloud_provider),
        ("timestamp", .str now)] })

/-- The `error_messages` table of `/simulate/error` (app.py lines 142-152). -/
def error_messages : List (Int × String) := [
  (400, "Bad Request - Simulated client error"),
  (401, "Unauthorized - Simulated authentication failure"),
  (403, "Forbidden - Simulated authorization failure"),
  (404, "Not Found - Simulated missing resource"),
  (429, "Too Many Requests - Simulated rate limit"),
  (500, "Internal Server Error - Simulated server error"),
  (502, "Bad Gateway - Simulated upstream error"),
  (503, "Service Unavailable - Simulated service failure"),
  (504, "Gateway Timeout - Simulated timeout")]

/-- The `/simulate/error` handler (app.py lines 134-161): parse `code` with
default 500, look up the message (falling back to the synthesized one), and
respond with that body and status `code`. -/
def simulate_error (cfg : Config) (req : HttpRequest) (now : String) : HttpResponse :=
  let code := argsGetInt req.args "code" 500
  let message := (error_messages.lookup code).getD
    ("Simulated error with code " ++ toString code)
  { status := code
    body := .obj [
      ("error", .str message),
      ("code", .int code),
      ("cloud", .str cfg.cloud_provider),
      ("timestamp", .str now)] }

/-- The 404 error handler (app.py lines 164-170). -/
def not_found (cfg : Config) (now : String) : HttpResponse :=
  { status := 404
    body := .obj [
      ("error", .str "Endpoint not found"),
      ("cloud", .str cfg.cloud_provider),
      ("timestamp", .str now)] }

/-- The 500 error handler (app.py lines 173-179). -/
def internal_error (cfg : Config) (now : String) : HttpResponse :=
  { status := 500
    body := .obj [
      ("error", .str "Internal server error"),
      ("cloud", .str cfg.cloud_provider),
      ("timestamp", .str now)] }

/-- The paths registered with `@app.route` (all GET). -/
def routes : List String :=
  ["/hello", "/health", "/ready", "/info", "/simulate/slow", "/simulate/error"]

/-- The Flask routing table: dispatch a GET request to its handler, or to
the 404 error handler when no route matches. -/
def dispatch (cfg : Config) (hostname : String) (req : HttpRequest) (now : String) :
    Except String HttpResponse :=
  if req.path = "/hello" then .ok (hello cfg req now)
  else if req.path = "/health" then .ok (health cfg now)
  else if req.path = "/ready" then .ok (ready cfg now)
  else if req.path = "/info" then .ok (info cfg hostname now)
  else if req.path = "/simulate/slow" then simulate_slow cfg req now
  else if req.path = "/simulate/error" then .ok (simulate_error cfg req now)
  else .ok (not_found cfg now)

/-- The process state: only the configuration persists between requests. -/
structure ServerState where
  config : Config
  deriving Repr, DecidableEq

/-- Handling one request: the handlers read the configuration and never
assign to it, so the state after the request is the state before it. -/
def handle (st : ServerState) (req : HttpRequest) (hostname now : String) :
    ServerState × Except String HttpResponse :=
  (st, dispatch st.config hostname req now)

/-- Run a sequence of requests (each with its request-time hostname and
timestamp) through the server, threading the state. -/
def run : ServerState → List (HttpRequest × String × String) →
    ServerState × List (Except String HttpResponse)
  | st, [] => (st, [])
  | st, (req, hostname, now) :: rest =>
    let p := handle st req hostname now
    let q := run p.1 rest
    (q.1, p.2 :: q.2)

/-- A concrete configuration used by the closed witness theorems. -/
def cfgEx : Config :=
  { cloud_provider := "AWS", region := "us-east-1", environment := "dev",
    pod_name := "pod-1", pod_ip := "10.0.0.1" }

/-- A concrete `/hello` request carrying all three inspected headers, used
by the closed counterexample below. -/
def reqEx : HttpRequest :=
  { path := "/hello", remote_addr := "1.2.3.4",
    headers := [("X-Forwarded-For", "5.6.7.8"), ("X-APIM-Gateway", "apim-gw"),
                ("User-Agent", "curl/8.0")],
    args := [] }

/-- C6: `/health` and `/ready` both return status 200 with `status` fields
`"healthy"` and `"ready"` respectively, and their bodies have the same
shape `(status, cloud, timestamp)`, agreeing on `cloud` and `timestamp`. -/
theorem health_ready_probes (cfg : Config) (now : String) :
    (health cfg now).status = 200 ∧
    (health cfg now).body.getField "status" = some (.str "healthy") ∧
    (ready cfg now).status = 200 ∧
    (ready cfg now).body.getField "status" = some (.str "ready") ∧
    (health cfg now).body.keys = ["status", "cloud", "timestamp"] ∧
    (ready cfg now).body.keys = ["status", "cloud", "timestamp"] ∧
    (health cfg now).body.getField "cloud" = (ready cfg now).body.getField "cloud" ∧
    (health cfg now).body.getField "timestamp" = (ready cfg now).body.getField "timestamp" :=
  ⟨rfl, rfl, rfl, rfl, rfl, rfl, rfl, rfl⟩

/-- C7: a request whose path matches no declared route is dispatched to the
404 handler, whose body carries `error = "Endpoint not found"` together
with `cloud` and `timestamp`. -/
theorem unmatched_path_404 (cfg : Config) (hostname : String) (req : HttpRequest)
    (now : String) (h : req.path ∉ routes) :
    dispatch cfg hostname req now = .ok (not_found cfg now) ∧
    (not_found cfg now).status = 404 ∧
    (not_found cfg now).body.getField "error" = some (.str "Endpoint not found") ∧
    (not_found cfg now).body.getField "cloud" = some (.str cfg.cloud_provider) ∧
    (not_found cfg now).body.getField "timestamp" = some (.str now) := by
  refine ⟨?_, rfl, rfl, rfl, rfl⟩
  simp only [routes, List.mem_cons, List.not_mem_nil, or_false, not_or] at h
  obtain ⟨h1, h2, h3, h4, h5, h6⟩ := h
  simp [dispatch, h1, h2, h3, h4, h5, h6]

/-- C7 witness: a GET to `/nonexistent` is dispatched to the 404 handler. -/
theorem unmatched_path_404_witness :
    dispatch cfgEx "host" ⟨"/nonexistent", "1.2.3.4", [], []⟩ "t" = .ok (not_found cfgEx "t") ∧
    (not_found cfgEx "t").status = 404 ∧
    (not_found cfgEx "t").body.getField "error" = some (.str "Endpoint not found") ∧
    (not_found cfgEx "t").body.getField "cloud" = some (.str cfgEx.cloud_provider) ∧
    (not_found cfgEx "t").body.getField "timestamp" = some (.str "t") :=
  unmatched_path_404 cfgEx "host" ⟨"/nonexistent", "1.2.3.4", [], []⟩ "t" (by decide)

/-- C8: every error body — not-found, internal fault, and simulated error
with any code — contains the `cloud` and `timestamp` fields. -/
theorem error_bodies_have_cloud_timestamp (cfg : Config) (req : HttpRequest) (now : String) :
    (not_found cfg now).body.getField "cloud" = some (.str cfg.cloud_provider) ∧
    (not_found cfg now).body.getField "timestamp" = some (.str now) ∧
    (internal_error cfg now).body.getField "cloud" = some (.str cfg.cloud_provider) ∧
    (internal_error cfg now).body.getField "timestamp" = some (.str now) ∧
    (simulate_error cfg req now).body.getField "cloud" = some (.str cfg.cloud_provider) ∧
    (simulate_error cfg req now).body.getField "timestamp" = some (.str now) :=
  ⟨rfl, rfl, rfl, rfl, rfl, rfl⟩

/-- C2: when the `code` query parameter parses as an integer `n`, the
response status of `/simulate/error` equals `n` exactly — no validation,
clamping or rejection — and the body's `code` field also equals `n`. -/
theorem simulate_error_echoes_code (cfg : Config) (req : HttpRequest) (now s : String)
    (n : Int) (h1 : req.args.lookup "code" = some s) (h2 : pythonInt? s = some n) :
    (simulate_error cfg req now).status = n ∧
    (simulate_error cfg req now).body.getField "code" = some (.int n) := by
  have hc : argsGetInt req.args "code" 500 = n := by simp [argsGetInt, h1, h2]
  have hb : simulate_error cfg req now =
      { status := n
        body := .obj [
          ("error", .str ((error_messages.lookup n).getD
            ("Simulated error with code " ++ toString n))),
          ("code", .int n),
          ("cloud", .str cfg.cloud_provider),
          ("timestamp", .str now)] } := by
    simp [simulate_error, hc]
  rw [hb]
  exact ⟨rfl, rfl⟩

/-- C2 witness: `code=999` yields status 999 and body `code` field 999. -/
theorem simulate_error_echoes_code_witness :
    (simulate_error cfgEx ⟨"/simulate/error", "1.2.3.4", [], [("code", "999")]⟩ "t").status = 999 ∧
    (simulate_error cfgEx ⟨"/simulate/error", "1.2.3.4", [], [("code", "999")]⟩ "t").body.getField "code" =
      some (.int 999) :=
  simulate_error_echoes_code cfgEx ⟨"/simulate/error", "1.2.3.4", [], [("code", "999")]⟩
    "t" "999" 999 (by decide) (by decide)

/-- C3: when the `delay` query parameter parses as `d`, the effective delay
of `/simulate/slow` — used both as the sleep duration and as the
`delay_seconds` value of the body — is `min d 30`. -/
theorem simulate_slow_clamps_delay (cfg : Config) (req : HttpRequest) (now s : String)
    (d : Int) (h1 : req.args.lookup "delay" = some s) (h2 : pythonInt? s = some d) :
    slowDelay req = min d 30 ∧
    simulate_slow cfg req now = (timeSleep (min d 30)).map (fun _ =>
      { status := 200
        body := .obj [
          ("message", .str ("Slow response after " ++ toString (min d 30) ++ " seconds")),
          ("delay_seconds", .int (min d 30)),
          ("cloud", .str cfg.cloud_provider),
          ("timestamp", .str now)] }) := by
  have hd : slowDelay req = min d 30 := by simp [slowDelay, argsGetInt, h1, h2]
  exact ⟨hd, by rw [simulate_slow, hd]⟩

/-- C3 witness: `delay=40` gives effective delay `min 40 30 = 30`, the
sleep succeeds, and the body reports 30 seconds. -/
theorem simulate_slow_clamps_delay_witness :
    slowDelay ⟨"/simulate/slow", "1.2.3.4", [], [("delay", "40")]⟩ = min 40 30 ∧
    simulate_slow cfgEx ⟨"/simulate/slow", "1.2.3.4", [], [("delay", "40")]⟩ "t" =
      (timeSleep (min 40 30)).map (fun _ =>
        { status := 200
          body := .obj [
            ("message", .str ("Slow response after " ++ toString (min (40 : Int) 30) ++ " seconds")),
            ("delay_seconds", .int (min 40 30)),
            ("cloud", .str cfgEx.cloud_provider),
            ("timestamp", .str "t")] }) :=
  simulate_slow_clamps_delay cfgEx ⟨"/simulate/slow", "1.2.3.4", [], [("delay", "40")]⟩
    "t" "40" 40 (by decide) (by decide)

/-- C4: when `delay` is absent or unparseable the effective delay is the
default 5 and the slow request still succeeds; when `code` is absent or
unparseable the simulated error uses the default 500. -/
theorem default_query_parameters (cfg : Config) (reqS reqE : HttpRequest) (now : String)
    (hd : reqS.args.lookup "delay" = none ∨
      ∃ s, reqS.args.lookup "delay" = some s ∧ pythonInt? s = none)
    (hc : reqE.args.lookup "code" = none ∨
      ∃ s, reqE.args.lookup "code" = some s ∧ pythonInt? s = none) :
    slowDelay reqS = 5 ∧
    simulate_slow cfg reqS now = .ok
      { status := 200
        body := .obj [
          ("message", .str "Slow response after 5 seconds"),
          ("delay_seconds", .int 5),
          ("cloud", .str cfg.cloud_provider),
          ("timestamp", .str now)] } ∧
    (simulate_error cfg reqE now).status = 500 ∧
    (simulate_error cfg reqE now).body.getField "code" = some (.int 500) := by
  have h5 : argsGetInt reqS.args "delay" 5 = 5 := by
    rcases hd with h | ⟨s, h1, h2⟩
    · simp [argsGetInt, h]
    · simp [argsGetInt, h1, h2]
  have hD : slowDelay reqS = 5 := by simp [slowDelay, h5]
  have h500 : argsGetInt reqE.args "code" 500 = 500 := by
    rcases hc with h | ⟨s, h1, h2⟩
    · simp [argsGetInt, h]
    · simp [argsGetInt, h1, h2]
  have hb : simulate_error cfg reqE now =
      { status := 500
        body := .obj [
          ("error", .str "Internal Server Error - Simulated server error"),
          ("code", .int 500),
          ("cloud", .str cfg.cloud_provider),
          ("timestamp", .str now)] } := by
    simp only [simulate_error, h500]
    rfl
  refine ⟨hD, ?_, ?_, ?_⟩
  · rw [simulate_slow, hD]; rfl
  · rw [hb]
  · rw [hb]; rfl

/-- C4 witness: `delay=abc` (unparseable) defaults to 5 and succeeds; an
absent `code` defaults to 500. -/
theorem default_query_parameters_witness :
    slowDelay ⟨"/simulate/slow", "1.2.3.4", [], [("delay", "abc")]⟩ = 5 ∧
    simulate_slow cfgEx ⟨"/simulate/slow", "1.2.3.4", [], [("delay", "abc")]⟩ "t" = .ok
      { status := 200
        body := .obj [
          ("message", .str "Slow response after 5 seconds"),
          ("delay_seconds", .int 5),
          ("cloud", .str cfgEx.cloud_provider),
          ("timestamp", .str "t")] } ∧
    (simulate_error cfgEx ⟨"/simulate/error", "1.2.3.4", [], []⟩ "t").status = 500 ∧
    (simulate_error cfgEx ⟨"/simulate/error", "1.2.3.4", [], []⟩ "t").body.getField "code" =
      some (.int 500) :=
  default_query_parameters cfgEx ⟨"/simulate/slow", "1.2.3.4", [], [("delay", "abc")]⟩
    ⟨"/simulate/error", "1.2.3.4", [], []⟩ "t"
    (Or.inr ⟨"abc", by decide, by decide⟩) (Or.inl (by decide))

/-- C5: when the `code` query parameter parses as `n`, the body's `error`
field is the fixed message for each known code (in particular 404 gives
"Not Found - Simulated missing resource"), and for any other integer it is
"Simulated error with code " followed by `n`. -/
theorem simulate_error_messages (cfg : Config) (req : HttpRequest) (now s : String)
    (n : Int) (h1 : req.args.lookup "code" = some s) (h2 : pythonInt? s = some n) :
    (simulate_error cfg req now).body.getField "error" =
      some (.str ((error_messages.lookup n).getD ("Simulated error with code " ++ toString n))) ∧
    (n = 404 → (simulate_error cfg req now).body.getField "error" =
      some (.str "Not Found - Simulated missing resource")) ∧
    (n ∉ ([400, 401, 403, 404, 429, 500, 502, 503, 504] : List Int) →
      (simulate_error cfg req now).body.getField "error" =
        some (.str ("Simulated error with code " ++ toString n))) := by
  have hc : argsGetInt req.args "code" 500 = n := by simp [argsGetInt, h1, h2]
  have key : (simulate_error cfg req now).body.getField "error" =
      some (.str ((error_messages.lookup n).getD ("Simulated error with code " ++ toString n))) := by
    have hb : simulate_error cfg req now =
        { status := n
          body := .obj [
            ("error", .str ((error_messages.lookup n).getD
              ("Simulated error with code " ++ toString n))),
            ("code", .int n),
            ("cloud", .str cfg.cloud_provider),
            ("timestamp", .str now)] } := by
      simp [simulate_error, hc]
    rw [hb]
    rfl
  refine ⟨key, ?_, ?_⟩
  · rintro rfl
    exact key
  · intro hn
    simp only [List.mem_cons, List.not_mem_nil, or_false, not_or] at hn
    obtain ⟨e1, e2, e3, e4, e5, e6, e7, e8, e9⟩ := hn
    rw [key]
    have b1 : (n == (400 : Int)) = false := beq_eq_false_iff_ne.mpr e1
    have b2 : (n == (401 : Int)) = false := beq_eq_false_iff_ne.mpr e2
    have b3 : (n == (403 : Int)) = false := beq_eq_false_iff_ne.mpr e3
    have b4 : (n == (404 : Int)) = false := beq_eq_false_iff_ne.mpr e4
    have b5 : (n == (429 : Int)) = false := beq_eq_false_iff_ne.mpr e5
    have b6 : (n == (500 : Int)) = false := beq_eq_false_iff_ne.mpr e6
    have b7 : (n == (502 : Int)) = false := beq_eq_false_iff_ne.mpr e7
    have b8 : (n == (503 : Int)) = false := beq_eq_false_iff_ne.mpr e8
    have b9 : (n == (504 : Int)) = false := beq_eq_false_iff_ne.mpr e9
    simp [error_messages, List.lookup, b1, b2, b3, b4, b5, b6, b7, b8, b9]

/-- C5 witness: `code=404` gives the fixed not-found message, and
`code=404` is a known code while the generic branch is vacuous there; the
parsed value 404 satisfies both hypotheses concretely. -/
theorem simulate_error_messages_witness :
    (simulate_error cfgEx ⟨"/simulate/error", "1.2.3.4", [], [("code", "404")]⟩ "t").body.getField "error" =
      some (.str ((error_messages.lookup 404).getD ("Simulated error with code " ++ toString (404 : Int)))) ∧
    ((404 : Int) = 404 →
      (simulate_error cfgEx ⟨"/simulate/error", "1.2.3.4", [], [("code", "404")]⟩ "t").body.getField "error" =
        some (.str "Not Found - Simulated missing resource")) ∧
    ((404 : Int) ∉ ([400, 401, 403, 404, 429, 500, 502, 503, 504] : List Int) →
      (simulate_error cfgEx ⟨"/simulate/error", "1.2.3.4", [], [("code", "404")]⟩ "t").body.getField "error" =
        some (.str ("Simulated error with code " ++ toString (404 : Int)))) :=
  simulate_error_messages cfgEx ⟨"/simulate/error", "1.2.3.4", [], [("code", "404")]⟩
    "t" "404" 404 (by decide) (by decide)

/-- C10: the clamp in `/simulate/slow` is one-sided — a negative parsed
delay `n` is used as the effective delay itself (not the default 5, not 0)
and is passed to the sleep, whose negative-duration failure prevents the
success branch. -/
theorem simulate_slow_negative_delay (cfg : Config) (req : HttpRequest) (now s : String)
    (n : Int) (h1 : req.args.lookup "delay" = some s) (h2 : pythonInt? s = some n)
    (h3 : n < 0) :
    slowDelay req = n ∧ n ≠ 5 ∧ n ≠ 0 ∧
    simulate_slow cfg req now = .error "sleep length must be non-negative" := by
  have hd : slowDelay req = n := by
    rw [slowDelay]
    have ha : argsGetInt req.args "delay" 5 = n := by simp [argsGetInt, h1, h2]
    rw [ha, min_eq_left (by omega : n ≤ 30)]
  refine ⟨hd, by omega, by omega, ?_⟩
  rw [simulate_slow, hd]
  simp [timeSleep, h3, Except.map]

/-- C10 witness: `delay=-3` gives effective delay -3 and the sleep fails. -/
theorem simulate_slow_negative_delay_witness :
    slowDelay ⟨"/simulate/slow", "1.2.3.4", [], [("delay", "-3")]⟩ = -3 ∧
    (-3 : Int) ≠ 5 ∧ (-3 : Int) ≠ 0 ∧
    simulate_slow cfgEx ⟨"/simulate/slow", "1.2.3.4", [], [("delay", "-3")]⟩ "t" =
      .error "sleep length must be non-negative" :=
  simulate_slow_negative_delay cfgEx ⟨"/simulate/slow", "1.2.3.4", [], [("delay", "-3")]⟩
    "t" "-3" (-3) (by decide) (by decide) (by decide)

/-- C1 counterexample: in the source, the `X-APIM-Gateway` value sits under
the key `gateway`, not `apim_gateway`: on a concrete request carrying that
header, the `request` object of the `/hello` body has no `apim_gateway`
field, while its `gateway` field holds the header value. -/
theorem hello_apim_gateway_key_absent :
    Json.getField (((hello cfgEx reqEx "t").body.getField "request").getD .null)
      "apim_gateway" = none ∧
    Json.getField (((hello cfgEx reqEx "t").body.getField "request").getD .null)
      "gateway" = some (.str "apim-gw") :=
  ⟨rfl, rfl⟩

/-- C1 (amended): the `/hello` response has status 200, message
`"Hello from " ++ cloud_provider ++ "!"`, the full instance configuration
under `instance`, and exactly the fields `client_ip`, `forwarded_for` and
`gateway` (the latter holding the `X-APIM-Gateway` header) under `request`;
the captured `User-Agent` header does not appear in the body. -/
theorem hello_response_shape (cfg : Config) (req : HttpRequest) (now : String) :
    (hello cfg req now).status = 200 ∧
    (hello cfg req now).body.getField "message" =
      some (.str ("Hello from " ++ cfg.cloud_provider ++ "!")) ∧
    (hello cfg req now).body.getField "instance" = some (.obj [
      ("cloud", .str cfg.cloud_provider),
      ("region", .str cfg.region),
      ("environment", .str cfg.environment),
      ("pod_name", .str cfg.pod_name),
      ("pod_ip", .str cfg.pod_ip)]) ∧
    (((hello cfg req now).body.getField "request").getD .null).keys =
      ["client_ip", "forwarded_for", "gateway"] ∧
    Json.getField (((hello cfg req now).body.getField "request").getD .null) "client_ip" =
      some (.str req.remote_addr) ∧
    Json.getField (((hello cfg req now).body.getField "request").getD .null) "forwarded_for" =
      some (.ofOptStr (headerGet req "X-Forwarded-For")) ∧
    Json.getField (((hello cfg req now).body.getField "request").getD .null) "gateway" =
      some (.ofOptStr (headerGet req "X-APIM-Gateway")) ∧
    (hello cfg req now).body.keys = ["message", "source", "timestamp", "instance", "request"] ∧
    "user_agent" ∉ (hello cfg req now).body.keys ∧
    "user_agent" ∉ (((hello cfg req now).body.getField "request").getD .null).keys := by
  refine ⟨rfl, rfl, rfl, rfl, rfl, rfl, rfl, rfl, ?_, ?_⟩
  · show "user_agent" ∉ ["message", "source", "timestamp", "instance", "request"]
    decide
  · show "user_agent" ∉ ["client_ip", "forwarded_for", "gateway"]
    decide

/-- Helper for C9: handling a sequence of requests threads the server state
through unchanged and each response is computed from that same state. -/
theorem run_eq (st : ServerState) (reqs : List (HttpRequest × String × String)) :
    run st reqs = (st, reqs.map (fun t => dispatch st.config t.2.1 t.1 t.2.2)) := by
  induction reqs with
  | nil => rfl
  | cons hd tl ih => simp [run, handle, ih]

/-- C9: the instance configuration built at process start is never mutated
by any handler — after any sequence of requests the state still holds the
startup configuration, and every response along the way is the one computed
from the startup configuration. -/
theorem config_immutable (env : List (String × String)) (hostname0 : String)
    (reqs : List (HttpRequest × String × String)) :
    (run ⟨mkConfig env hostname0⟩ reqs).1 = ⟨mkConfig env hostname0⟩ ∧
    (run ⟨mkConfig env hostname0⟩ reqs).2 =
      reqs.map (fun t => dispatch (mkConfig env hostname0) t.2.1 t.1 t.2.2) := by
  rw [run_eq]
  exact ⟨rfl, rfl⟩

end HelloApi
